import Mathlib

/-!
Shallow embedding of the Chat Session Engine of the leetcode-whisper
browser extension (source: `src/content/content.tsx`).

Text is modelled as `List Char`.  The JavaScript runtime pieces the engine
relies on (`JSON.parse`, the `in` operator, property access) are modelled
explicitly; a JS exception is an `Except.error`.
-/

/-- A JSON value as produced by `JSON.parse`.  Numbers keep their raw
lexeme, since the engine never inspects numeric values. -/
inductive Json where
  | null : Json
  | bool : Bool → Json
  | num : List Char → Json
  | str : List Char → Json
  | arr : List Json → Json
  | obj : List (List Char × Json) → Json

/-- Skip JSON whitespace. -/
def skipWs : List Char → List Char
  | [] => []
  | c :: r => if c = ' ' ∨ c = '\t' ∨ c = '\n' ∨ c = '\r' then skipWs r else c :: r

/-- Hexadecimal digit value. -/
def hexVal (c : Char) : Option Nat :=
  if '0' ≤ c ∧ c ≤ '9' then some (c.toNat - '0'.toNat)
  else if 'a' ≤ c ∧ c ≤ 'f' then some (c.toNat - 'a'.toNat + 10)
  else if 'A' ≤ c ∧ c ≤ 'F' then some (c.toNat - 'A'.toNat + 10)
  else none

/-- JSON string escape characters. -/
def escChar (c : Char) : Option Char :=
  if c = '"' then some '"'
  else if c = '\\' then some '\\'
  else if c = '/' then some '/'
  else if c = 'b' then some '\x08'
  else if c = 'f' then some '\x0c'
  else if c = 'n' then some '\n'
  else if c = 'r' then some '\r'
  else if c = 't' then some '\t'
  else none

/-- Parse the body of a JSON string literal (after the opening quote),
returning the decoded characters and the remainder after the closing
quote. -/
def parseStrAux : List Char → Option (List Char × List Char)
  | [] => none
  | '"' :: rest => some ([], rest)
  | '\\' :: 'u' :: h1 :: h2 :: h3 :: h4 :: rest =>
    match hexVal h1, hexVal h2, hexVal h3, hexVal h4 with
    | some a, some b, some c, some d =>
      (parseStrAux rest).map
        (fun r => (Char.ofNat (((a * 16 + b) * 16 + c) * 16 + d) :: r.1, r.2))
    | _, _, _, _ => none
  | '\\' :: e :: rest =>
    match escChar e with
    | some c => (parseStrAux rest).map (fun r => (c :: r.1, r.2))
    | none => none
  | c :: rest =>
    if c.toNat < 32 then none
    else (parseStrAux rest).map (fun r => (c :: r.1, r.2))

/-- Longest run of decimal digits. -/
def takeDigits : List Char → (List Char × List Char)
  | [] => ([], [])
  | c :: rest =>
    if '0' ≤ c ∧ c ≤ '9' then
      let r := takeDigits rest
      (c :: r.1, r.2)
    else ([], c :: rest)

/-- Optional exponent part of a JSON number. -/
def parseExpPart (acc : List Char) (s : List Char) : Option (List Char × List Char) :=
  match s with
  | c :: r =>
    if c = 'e' ∨ c = 'E' then
      match r with
      | sg :: r2 =>
        if sg = '+' ∨ sg = '-' then
          match takeDigits r2 with
          | ([], _) => none
          | (ds, rest) => some (acc ++ [c, sg] ++ ds, rest)
        else
          match takeDigits r with
          | ([], _) => none
          | (ds, rest) => some (acc ++ [c] ++ ds, rest)
      | [] => none
    else some (acc, s)
  | [] => some (acc, [])

/-- Optional fraction part of a JSON number, then the exponent part. -/
def parseFracPart (acc : List Char) (s : List Char) : Option (List Char × List Char) :=
  match s with
  | '.' :: r =>
    match takeDigits r with
    | ([], _) => none
    | (ds, rest) => parseExpPart (acc ++ '.' :: ds) rest
  | _ => parseExpPart acc s

/-- Integer part of a JSON number (no leading zeros except a lone 0). -/
def parseIntPart (acc : List Char) (s : List Char) : Option (List Char × List Char) :=
  match s with
  | '0' :: r => parseFracPart (acc ++ ['0']) r
  | c :: r =>
    if '1' ≤ c ∧ c ≤ '9' then
      let d := takeDigits r
      parseFracPart (acc ++ c :: d.1) d.2
    else none
  | [] => none

/-- A JSON number lexeme per the JSON grammar. -/
def parseNumLex (s : List Char) : Option (List Char × List Char) :=
  match s with
  | '-' :: s1 => parseIntPart ['-'] s1
  | _ => parseIntPart [] s

mutual

/-- Parse one JSON value; `fuel` bounds recursion depth. -/
def parseVal : Nat → List Char → Option (Json × List Char)
  | 0, _ => none
  | fuel + 1, s =>
    match skipWs s with
    | 'n' :: 'u' :: 'l' :: 'l' :: r => some (Json.null, r)
    | 't' :: 'r' :: 'u' :: 'e' :: r => some (Json.bool true, r)
    | 'f' :: 'a' :: 'l' :: 's' :: 'e' :: r => some (Json.bool false, r)
    | '"' :: r => (parseStrAux r).map (fun p => (Json.str p.1, p.2))
    | '[' :: r =>
      match skipWs r with
      | ']' :: r2 => some (Json.arr [], r2)
      | s2 => (parseItems fuel s2).map (fun p => (Json.arr p.1, p.2))
    | '\x7b' :: r =>
      match skipWs r with
      | '\x7d' :: r2 => some (Json.obj [], r2)
      | s2 => (parseMembers fuel s2).map (fun p => (Json.obj p.1, p.2))
    | s1 => (parseNumLex s1).map (fun p => (Json.num p.1, p.2))

/-- Parse the elements of a non-empty JSON array. -/
def parseItems : Nat → List Char → Option (List Json × List Char)
  | 0, _ => none
  | fuel + 1, s =>
    match parseVal fuel s with
    | none => none
    | some (v, rest) =>
      match skipWs rest with
      | ',' :: r2 => (parseItems fuel r2).map (fun p => (v :: p.1, p.2))
      | ']' :: r2 => some ([v], r2)
      | _ => none

/-- Parse the members of a non-empty JSON object. -/
def parseMembers : Nat → List Char → Option (List (List Char × Json) × List Char)
  | 0, _ => none
  | fuel + 1, s =>
    match skipWs s with
    | '"' :: r =>
      match parseStrAux r with
      | none => none
      | some (key, rest) =>
        match skipWs rest with
        | ':' :: r2 =>
          match parseVal fuel r2 with
          | none => none
          | some (v, rest2) =>
            match skipWs rest2 with
            | ',' :: r3 => (parseMembers fuel r3).map (fun p => ((key, v) :: p.1, p.2))
            | '\x7d' :: r3 => some ([(key, v)], r3)
            | _ => none
        | _ => none
    | _ => none

end

/-- Model of the JavaScript builtin `JSON.parse`: `none` means the call
throws a `SyntaxError`. -/
def parseJson (s : List Char) : Option Json :=
  match parseVal (2 * s.length + 2) s with
  | some (v, rest) => if skipWs rest = [] then some v else none
  | none => none

example : parseJson ("not-json".toList) = none := rfl
example : parseJson ("\x7b\x7d".toList) = some (Json.obj []) := rfl
example : parseJson (" \x7b\"output\": \x7b\"feedback\": \"f\"\x7d\x7d".toList) =
    some (Json.obj [("output".toList, Json.obj [("feedback".toList, Json.str ("f".toList))])]) := rfl
example : parseJson ("\x7b\"output\": null\x7d".toList) =
    some (Json.obj [("output".toList, Json.null)]) := rfl
example : parseJson ("[1, true, \"a\"]".toList) =
    some (Json.arr [Json.num ("1".toList), Json.bool true, Json.str ("a".toList)]) := rfl
example : parseJson ("01".toList) = none := rfl
example : parseJson ("".toList) = none := rfl

/-! ## Data model (`ChatMessage` of `content.tsx`) -/

/-- The `role` field of a `ChatMessage`. -/
inductive Role where
  | user : Role
  | assistant : Role
deriving DecidableEq

/-- The `type` field of a `ChatMessage` (rendering kind). -/
inductive DisplayType where
  | text : DisplayType
  | markdown : DisplayType
deriving DecidableEq

/-- The optional `assistantResponse` payload of an assistant `ChatMessage`.
The source trusts the provider's types, so each field is whatever JSON value
property access produced (`none` models JavaScript `undefined`). -/
structure AssistantResponse where
  feedback : Option Json
  hints : Option Json
  snippet : Option Json
  programmingLanguage : Option Json

/-- One entry of the conversation store (`ChatMessage` in `content.tsx`). -/
structure ChatMessage where
  role : Role
  message : List Char
  type : DisplayType
  assistantResponse : Option AssistantResponse

/-- Role of a provider message (`ChatCompletionMessageParam`). -/
inductive PRole where
  | system : PRole
  | user : PRole
  | assistant : PRole
deriving DecidableEq

/-- One `{role, content}` message of the provider request. -/
structure ProviderMessage where
  role : PRole
  content : List Char
deriving DecidableEq

/-! ## Prompt builder (`SYSTEM_PROMPT.replace(...).replace(...).replace(...)`) -/

/-- The placeholder text for the problem statement (braces written
with hex escapes). -/
def psPat : List Char := "\x7b\x7bproblem_statement\x7d\x7d".toList

/-- The placeholder text for the programming language. -/
def plPat : List Char := "\x7b\x7bprogramming_language\x7d\x7d".toList

/-- The placeholder text for the user code. -/
def ucPat : List Char := "\x7b\x7buser_code\x7d\x7d".toList

/-- Template text before the problem-statement placeholder. -/
def tplA : List Char := "You are a coding assistant. Problem: ".toList

/-- Template text between the first and second placeholder. -/
def tplB : List Char := "\nLanguage: ".toList

/-- Template text between the second and third placeholder. -/
def tplC : List Char := "\nUser code: ".toList

/-- Template text after the last placeholder. -/
def tplD : List Char := "\nAnswer with a JSON object that has the key output.".toList

/-- Modelled from the spec: the fixed prompt template (`SYSTEM_PROMPT`, imported
from `@/constants/prompt`, a file that is not among the analysed sources).  Per
the spec it is a fixed template text with three named placeholders,
`problem_statement`, `programming_language` and `user_code`; here each occurs
exactly once, in that order, between brace-free filler text. -/
def SYSTEM_PROMPT : List Char := tplA ++ psPat ++ tplB ++ plPat ++ tplC ++ ucPat ++ tplD

/-- Split a list at the first occurrence of `pat`: `some (before, after)`
with the subject equal to `before ++ pat ++ after` and `before` shortest;
`none` when `pat` does not occur.  An empty `pat` matches at position 0,
as in JavaScript. -/
def findSplit (pat : List Char) : List Char → Option (List Char × List Char)
  | [] => if pat.isEmpty then some ([], []) else none
  | c :: rest =>
    if pat.isPrefixOf (c :: rest) then some ([], (c :: rest).drop pat.length)
    else (findSplit pat rest).map (fun q => (c :: q.1, q.2))

/-- The replacement-template expansion of `String.prototype.replace`
(ECMAScript GetSubstitution, specialised to a string search value, which
has no capture groups): a dollar sign followed by another dollar sign
yields one dollar sign; followed by an ampersand yields the matched text;
followed by a backtick yields the portion of the subject before the match;
followed by an apostrophe yields the portion after the match; any other
dollar sign is literal and scanning continues at the next character (in
particular the digit and named-group forms, which with zero capture groups
are left untouched). -/
def expandRepl (matched before after : List Char) : List Char → List Char
  | [] => []
  | c :: rest =>
    if c = '$' then
      match rest with
      | [] => ['$']
      | d :: rest2 =>
        if d = '$' then '$' :: expandRepl matched before after rest2
        else if d = '&' then matched ++ expandRepl matched before after rest2
        else if d = '\x60' then before ++ expandRepl matched before after rest2
        else if d = '\x27' then after ++ expandRepl matched before after rest2
        else '$' :: d :: expandRepl matched before after rest2
    else c :: expandRepl matched before after rest

/-- Model of the JavaScript `String.prototype.replace` with a string search
value: only the first occurrence is replaced, and the replacement argument
undergoes the dollar-pattern expansion of `expandRepl` (with a string
search value the matched text is the search value itself). -/
def replaceFirst (s pat repl : List Char) : List Char :=
  match findSplit pat s with
  | none => s
  | some bp => bp.1 ++ expandRepl pat bp.1 bp.2 repl ++ bp.2

/-- The chained substitution of `content.tsx` lines 77-82:
`SYSTEM_PROMPT.replace(psPat, p).replace(plPat, lang).replace(ucPat, code)`. -/
def buildPrompt (p lang code : List Char) : List Char :=
  replaceFirst (replaceFirst (replaceFirst SYSTEM_PROMPT psPat p) plPat lang) ucPat code

/-- The Prompt Builder contract in the spec's own words: each of the three
placeholders is substituted exactly once with the corresponding value and
substituted values are never re-scanned for placeholders (simultaneous,
non-recursive substitution on the template of `SYSTEM_PROMPT`). -/
def specSubstitute (p lang code : List Char) : List Char :=
  tplA ++ p ++ tplB ++ lang ++ tplC ++ code ++ tplD

example : buildPrompt ("P".toList) ("L".toList) ("C".toList) =
    specSubstitute ("P".toList) ("L".toList) ("C".toList) := rfl

example : replaceFirst ("a\x7b\x7bx\x7d\x7db".toList) ("\x7b\x7bx\x7d\x7d".toList)
    ("u$$v".toList) = "au$vb".toList := rfl
example : replaceFirst ("a\x7b\x7bx\x7d\x7db".toList) ("\x7b\x7bx\x7d\x7d".toList)
    ("u$&v".toList) = "au\x7b\x7bx\x7d\x7dvb".toList := rfl
example : replaceFirst ("a\x7b\x7bx\x7d\x7db".toList) ("\x7b\x7bx\x7d\x7d".toList)
    ("u$\x60v".toList) = "auavb".toList := rfl
example : replaceFirst ("a\x7b\x7bx\x7d\x7db".toList) ("\x7b\x7bx\x7d\x7d".toList)
    ("u$\x27v".toList) = "aubvb".toList := rfl
example : replaceFirst ("a\x7b\x7bx\x7d\x7db".toList) ("\x7b\x7bx\x7d\x7d".toList)
    ("u$1v".toList) = "au$1vb".toList := rfl
example : replaceFirst ("a\x7b\x7bx\x7d\x7db".toList) ("\x7b\x7bx\x7d\x7d".toList)
    ("u$".toList) = "au$b".toList := rfl
example : replaceFirst ("abc".toList) ("".toList) ("X".toList) = "Xabc".toList := rfl
example : replaceFirst ("abc".toList) ("zz".toList) ("X".toList) = "abc".toList := rfl
example : replaceFirst ("abab".toList) ("ab".toList) ("X".toList) = "Xab".toList := rfl

/-! ## The JavaScript object operations used on the parsed reply -/

/-- The key `output`. -/
def outputKey : List Char := "output".toList

/-- The key `feedback`. -/
def feedbackKey : List Char := "feedback".toList

/-- The key `hints`. -/
def hintsKey : List Char := "hints".toList

/-- The key `snippet`. -/
def snippetKey : List Char := "snippet".toList

/-- The key `programmingLanguage`. -/
def programmingLanguageKey : List Char := "programmingLanguage".toList

/-- Look a key up in a parsed JSON object.  `JSON.parse` keeps the last
binding of a duplicated key, so the last match wins. -/
def objLookup (fs : List (List Char × Json)) (k : List Char) : Option Json :=
  match fs with
  | [] => none
  | kv :: rest =>
    match objLookup rest k with
    | some r => some r
    | none => if kv.1 == k then some kv.2 else none

/-- The JavaScript expression `'output' in result`: on an object it tests key
presence, on an array the key `output` is never an own or inherited property,
and on `null` or a primitive the `in` operator throws a `TypeError`
(modelled as `Except.error`). -/
def jsHasOutput (j : Json) : Except Unit Bool :=
  match j with
  | Json.obj fs => Except.ok (fs.any (fun kv => kv.1 == outputKey))
  | Json.arr _ => Except.ok false
  | _ => Except.error ()

/-- JavaScript property access `v[k]`: on `null` it throws a `TypeError`;
on an object it yields the field (or `undefined`, modelled `none`); on any
other value (string, number, boolean, array) the properties used here are
absent, so it yields `undefined` without throwing. -/
def jsGetField (v : Json) (k : List Char) : Except Unit (Option Json) :=
  match v with
  | Json.null => Except.error ()
  | Json.obj fs => Except.ok (objLookup fs k)
  | _ => Except.ok none

/-- The value of `result.output` at the point where the source reads it
(this is only evaluated after `'output' in result` returned `true`, which
implies `result` is an object containing the key). -/
def outputVal (result : Json) : Json :=
  match result with
  | Json.obj fs => (objLookup fs outputKey).getD Json.null
  | _ => Json.null

/-- Is the value a JSON object? -/
def Json.isObjB : Json → Bool
  | Json.obj _ => true
  | _ => false

/-! ## Session controller (`ChatBox`, `handleGenerateAIResponse`, `onSendMessage`)

React state semantics relevant to the embedding: `handleGenerateAIResponse`
runs with the `value` and `chatHistory` captured by the render closure, i.e.
the history *before* the user entry that `onSendMessage` just queued, while
its own `setChatHistory((prev) => ...)` functional update appends to the
history that already contains that user entry.  A JavaScript exception that
escapes the async handler (an unhandled promise rejection) is modelled by
the `threw` flag. -/

/-- The per-turn inputs the handler reads from its environment: the
credential from `chrome.storage`, the problem statement supplied by the
host component, the text content of the language-selector button if the
button exists, the result of `extractCode` on the editor's line elements,
and the first choice's `message.content` of the provider reply (`none`
models a nullish content). -/
structure TurnEnv where
  apiKey : Option (List Char)
  problemStatement : List Char
  langButton : Option (List Char)
  extractedCode : List Char
  replyContent : Option (List Char)

/-- The component state the turn mutates: the input buffer `value` and the
conversation store `chatHistory`. -/
structure SessionState where
  value : List Char
  chatHistory : List ChatMessage

/-- The observable outcome of one run of `handleGenerateAIResponse`:
whether `alert(...)` fired, the message list of the provider request if a
request was made, the assistant entry appended by `setChatHistory` if any,
and whether an exception escaped the handler. -/
structure HandlerResult where
  alerted : Bool
  request : Option (List ProviderMessage)
  appended : Option ChatMessage
  threw : Bool

/-- `content.tsx` lines 68-73: the language label defaults to `UNKNOWN`
when the button is absent or its text content is falsy (empty). -/
def detectLanguage (btn : Option (List Char)) : List Char :=
  match btn with
  | some t => if t = [] then "UNKNOWN".toList else t
  | none => "UNKNOWN".toList

/-- The role mapping of `content.tsx` lines 89-95: a history entry's role
is carried over directly (user to user, assistant to assistant). -/
def mapRole : Role → PRole
  | Role.user => PRole.user
  | Role.assistant => PRole.assistant

/-- `content.tsx` lines 87-100: the provider message sequence — the system
prompt, one message per history entry with the role carried over and the
content equal to that entry's `message`, and the final user message
built by template literal. -/
def buildMessages (sys : List Char) (history : List ChatMessage)
    (userMessage extractedCode : List Char) : List ProviderMessage :=
  { role := PRole.system, content := sys } ::
    history.map (fun chat => { role := mapRole chat.role, content := chat.message }) ++
    [{ role := PRole.user,
       content := "User Prompt: ".toList ++ userMessage ++ "\n\nCode: ".toList ++ extractedCode }]

/-- `content.tsx` lines 106-120: processing of the parsed reply value —
the `'output' in result` test, then the four unguarded field accesses on
`result.output`, then the assistant entry with the sentinel message `NA`.
`Except.error` is a thrown `TypeError`; `Except.ok none` means the branch
was skipped and nothing appended. -/
def processParsed (result : Json) : Except Unit (Option ChatMessage) :=
  match jsHasOutput result with
  | Except.error e => Except.error e
  | Except.ok false => Except.ok none
  | Except.ok true =>
    match jsGetField (outputVal result) feedbackKey with
    | Except.error e => Except.error e
    | Except.ok f =>
      match jsGetField (outputVal result) hintsKey with
      | Except.error e => Except.error e
      | Except.ok h =>
        match jsGetField (outputVal result) snippetKey with
        | Except.error e => Except.error e
        | Except.ok s =>
          match jsGetField (outputVal result) programmingLanguageKey with
          | Except.error e => Except.error e
          | Except.ok pl =>
            Except.ok (some
              { role := Role.assistant,
                message := "NA".toList,
                type := DisplayType.markdown,
                assistantResponse := some
                  { feedback := f, hints := h, snippet := s, programmingLanguage := pl } })

/-- `content.tsx` lines 103-123: the guard `if (content)` (nullish or empty
content skips the block), then `JSON.parse` (throwing on invalid JSON),
then `processParsed`. -/
def processReply (content? : Option (List Char)) : Except Unit (Option ChatMessage) :=
  match content? with
  | none => Except.ok none
  | some content =>
    if content = [] then Except.ok none
    else
      match parseJson content with
      | none => Except.error ()
      | some result => processParsed result

/-- `content.tsx` lines 54-124, `handleGenerateAIResponse`: abort with an
alert when the credential is absent; otherwise build the prompt and the
message sequence, make the provider request, and process the reply. -/
def handleGenerateAIResponse (env : TurnEnv) (value : List Char)
    (chatHistory : List ChatMessage) : HandlerResult :=
  match env.apiKey with
  | none => { alerted := true, request := none, appended := none, threw := false }
  | some _ =>
    let msgs := buildMessages
      (buildPrompt env.problemStatement (detectLanguage env.langButton) env.extractedCode)
      chatHistory value env.extractedCode
    match processReply env.replyContent with
    | Except.error _ => { alerted := false, request := some msgs, appended := none, threw := true }
    | Except.ok app => { alerted := false, request := some msgs, appended := app, threw := false }

/-- One submit of the form (`content.tsx` lines 202-208 and 126-134): the
guard `value.length === 0`, then `onSendMessage` — append the user entry,
clear the input buffer, run `handleGenerateAIResponse` (whose closure still
sees the pre-submit history and value; its own functional update appends
after the user entry). -/
def submitTurn (env : TurnEnv) (st : SessionState) : SessionState × HandlerResult :=
  if st.value = [] then
    (st, { alerted := false, request := none, appended := none, threw := false })
  else
    let r := handleGenerateAIResponse env st.value st.chatHistory
    ({ value := [],
       chatHistory := st.chatHistory ++
         [{ role := Role.user, message := st.value, type := DisplayType.text,
            assistantResponse := none }] ++ r.appended.toList },
     r)

/-- Does every assistant entry of the store carry the sentinel message
`NA`? (`true` for user entries.) -/
def assistantNAOk (m : ChatMessage) : Bool :=
  match m.role with
  | Role.assistant => m.message == "NA".toList
  | Role.user => true

/-- The store-wide sentinel invariant. -/
def allAssistantNA (h : List ChatMessage) : Bool := h.all assistantNAOk

/-- Does a provider message with the assistant role carry the content `NA`? -/
def providerNAOk (pm : ProviderMessage) : Bool :=
  match pm.role with
  | PRole.assistant => pm.content == "NA".toList
  | _ => true

/-! ## Helper lemmas -/

theorem isPrefixOf_self_append (p r : List Char) : p.isPrefixOf (p ++ r) = true := by
  induction p with
  | nil => simp [List.isPrefixOf]
  | cons q qs ih => simp [List.isPrefixOf, ih]

theorem findSplit_skip (pat t a rest : List Char)
    (hpat : pat = '\x7b' :: t) (ha : '\x7b' ∉ a) :
    findSplit pat (a ++ rest) = (findSplit pat rest).map (fun q => (a ++ q.1, q.2)) := by
  induction a with
  | nil =>
    simp only [List.nil_append]
    cases hq : findSplit pat rest <;> simp
  | cons c a' ih =>
    simp only [List.mem_cons, not_or] at ha
    have hc : ('\x7b' == c) = false := beq_eq_false_iff_ne.mpr ha.1
    simp only [List.cons_append, findSplit, hpat, List.isPrefixOf, hc,
      Bool.false_and, Bool.false_eq_true, if_false, List.append_eq]
    rw [hpat] at ih
    rw [ih ha.2]
    cases hq : findSplit ('\x7b' :: t) rest <;> simp

theorem findSplit_hit (pat rest : List Char) (h : pat ≠ []) :
    findSplit pat (pat ++ rest) = some ([], rest) := by
  cases pat with
  | nil => exact absurd rfl h
  | cons q qs =>
    simp [findSplit, List.isPrefixOf, isPrefixOf_self_append, List.drop_left]

theorem expandRepl_verbatim (m b a repl : List Char) (hd : '$' ∉ repl) :
    expandRepl m b a repl = repl := by
  induction repl with
  | nil => rfl
  | cons c rest ih =>
    simp only [List.mem_cons, not_or] at hd
    have hc : ¬ c = '$' := fun h => hd.1 h.symm
    rw [expandRepl.eq_def]
    simp only [if_neg hc]
    rw [ih hd.2]

theorem replaceFirst_split (pat repl a rest t : List Char)
    (hpat : pat = '\x7b' :: t) (ha : '\x7b' ∉ a) (hd : '$' ∉ repl) :
    replaceFirst (a ++ (pat ++ rest)) pat repl = a ++ (repl ++ rest) := by
  rw [replaceFirst, findSplit_skip pat t a (pat ++ rest) hpat ha,
      findSplit_hit pat rest (by rw [hpat]; exact List.cons_ne_nil _ _)]
  simp [expandRepl_verbatim _ _ _ _ hd, List.append_assoc]

theorem submitTurn_eq (env : TurnEnv) (st : SessionState) (hne : st.value ≠ []) :
    submitTurn env st =
      ({ value := [],
         chatHistory := st.chatHistory ++
           [{ role := Role.user, message := st.value, type := DisplayType.text,
              assistantResponse := none }] ++
           (handleGenerateAIResponse env st.value st.chatHistory).appended.toList },
       handleGenerateAIResponse env st.value st.chatHistory) := by
  simp [submitTurn, hne]

theorem handler_eq (env : TurnEnv) (v : List Char) (hist : List ChatMessage)
    (key : List Char) (hk : env.apiKey = some key) :
    handleGenerateAIResponse env v hist =
      (match processReply env.replyContent with
       | Except.error _ =>
         { alerted := false,
           request := some (buildMessages
             (buildPrompt env.problemStatement (detectLanguage env.langButton) env.extractedCode)
             hist v env.extractedCode),
           appended := none, threw := true }
       | Except.ok app =>
         { alerted := false,
           request := some (buildMessages
             (buildPrompt env.problemStatement (detectLanguage env.langButton) env.extractedCode)
             hist v env.extractedCode),
           appended := app, threw := false }) := by
  simp [handleGenerateAIResponse, hk]

theorem parseJson_nil : parseJson ([] : List Char) = none := rfl

theorem processReply_parsed (content : List Char) (j : Json)
    (hj : parseJson content = some j) :
    processReply (some content) = processParsed j := by
  have hcne : content ≠ [] := by
    intro h
    rw [h, parseJson_nil] at hj
    exact Option.noConfusion hj
  simp [processReply, hcne, hj]

theorem any_false_of_all_neg {α : Type} (p : α → Bool) (l : List α)
    (h : l.all (fun x => !(p x)) = true) : l.any p = false := by
  induction l with
  | nil => rfl
  | cons a l' ih =>
    simp only [List.all_cons, Bool.and_eq_true, Bool.not_eq_true'] at h
    simp [List.any_cons, h.1, ih h.2]

theorem objLookup_any (fs : List (List Char × Json)) (k : List Char) (v : Json)
    (h : objLookup fs k = some v) : fs.any (fun kv => kv.1 == k) = true := by
  induction fs generalizing v with
  | nil => exact Option.noConfusion h
  | cons kv rest ih =>
    rw [objLookup] at h
    cases hrest : objLookup rest k with
    | some r =>
      simp [List.any_cons, ih r hrest]
    | none =>
      rw [hrest] at h
      by_cases hk : (kv.1 == k) = true
      · simp [List.any_cons, hk]
      · rw [if_neg hk] at h
        exact Option.noConfusion h

theorem processParsed_ok_shape (j : Json) (m : ChatMessage)
    (h : processParsed j = Except.ok (some m)) :
    m.role = Role.assistant ∧ m.message = "NA".toList ∧ m.type = DisplayType.markdown := by
  unfold processParsed at h
  cases h1 : jsHasOutput j with
  | error e => rw [h1] at h; exact Except.noConfusion h
  | ok b =>
    rw [h1] at h
    cases b with
    | false =>
      simp only at h
      exact Option.noConfusion (Except.ok.inj h)
    | true =>
      simp only at h
      cases h2 : jsGetField (outputVal j) feedbackKey with
      | error e => rw [h2] at h; exact Except.noConfusion h
      | ok f =>
        rw [h2] at h
        cases h3 : jsGetField (outputVal j) hintsKey with
        | error e => rw [h3] at h; exact Except.noConfusion h
        | ok hh =>
          rw [h3] at h
          cases h4 : jsGetField (outputVal j) snippetKey with
          | error e => rw [h4] at h; exact Except.noConfusion h
          | ok s =>
            rw [h4] at h
            cases h5 : jsGetField (outputVal j) programmingLanguageKey with
            | error e => rw [h5] at h; exact Except.noConfusion h
            | ok pl =>
              rw [h5] at h
              have := Except.ok.inj h
              have hm := Option.some.inj this
              rw [← hm]
              exact ⟨rfl, rfl, rfl⟩

theorem processReply_ok_shape (c : Option (List Char)) (m : ChatMessage)
    (h : processReply c = Except.ok (some m)) :
    m.role = Role.assistant ∧ m.message = "NA".toList ∧ m.type = DisplayType.markdown := by
  cases c with
  | none => exact Option.noConfusion (Except.ok.inj h)
  | some content =>
    rw [processReply] at h
    by_cases hc : content = []
    · rw [if_pos hc] at h
      exact Option.noConfusion (Except.ok.inj h)
    · rw [if_neg hc] at h
      cases hp : parseJson content with
      | none => rw [hp] at h; exact Except.noConfusion h
      | some j =>
        rw [hp] at h
        exact processParsed_ok_shape j m h

theorem processParsed_obj_no_output (fs : List (List Char × Json))
    (hmiss : fs.all (fun kv => !(kv.1 == outputKey)) = true) :
    processParsed (Json.obj fs) = Except.ok none := by
  have hany : fs.any (fun kv => kv.1 == outputKey) = false :=
    any_false_of_all_neg _ fs hmiss
  simp [processParsed, jsHasOutput, hany]

theorem processParsed_obj_output_obj (fs : List (List Char × Json))
    (ofs : List (List Char × Json))
    (hout : objLookup fs outputKey = some (Json.obj ofs)) :
    processParsed (Json.obj fs) =
      Except.ok (some
        { role := Role.assistant, message := "NA".toList, type := DisplayType.markdown,
          assistantResponse := some
            { feedback := objLookup ofs feedbackKey,
              hints := objLookup ofs hintsKey,
              snippet := objLookup ofs snippetKey,
              programmingLanguage := objLookup ofs programmingLanguageKey } }) := by
  have hany : fs.any (fun kv => kv.1 == outputKey) = true :=
    objLookup_any fs outputKey (Json.obj ofs) hout
  have hov : outputVal (Json.obj fs) = Json.obj ofs := by
    simp [outputVal, hout]
  simp [processParsed, jsHasOutput, hany, hov, jsGetField]

theorem processParsed_obj_output_null (fs : List (List Char × Json))
    (hout : objLookup fs outputKey = some Json.null) :
    processParsed (Json.obj fs) = Except.error () := by
  have hany : fs.any (fun kv => kv.1 == outputKey) = true :=
    objLookup_any fs outputKey Json.null hout
  have hov : outputVal (Json.obj fs) = Json.null := by
    simp [outputVal, hout]
  simp [processParsed, jsHasOutput, hany, hov, jsGetField]

theorem handler_none_key (env : TurnEnv) (v : List Char) (hist : List ChatMessage)
    (hk : env.apiKey = none) :
    handleGenerateAIResponse env v hist =
      { alerted := true, request := none, appended := none, threw := false } := by
  simp [handleGenerateAIResponse, hk]

theorem handler_appended_shape (env : TurnEnv) (v : List Char) (hist : List ChatMessage)
    (m : ChatMessage) (h : (handleGenerateAIResponse env v hist).appended = some m) :
    m.role = Role.assistant ∧ m.message = "NA".toList ∧ m.type = DisplayType.markdown := by
  cases hk : env.apiKey with
  | none =>
    rw [handler_none_key env v hist hk] at h
    exact Option.noConfusion h
  | some k =>
    rw [handler_eq env v hist k hk] at h
    cases hr : processReply env.replyContent with
    | error e => rw [hr] at h; simp at h
    | ok app =>
      rw [hr] at h
      have happ : app = some m := h
      exact processReply_ok_shape env.replyContent m (by rw [hr, happ])

theorem providerNAOk_of_assistantNAOk (chat : ChatMessage) (h : assistantNAOk chat = true) :
    providerNAOk { role := mapRole chat.role, content := chat.message } = true := by
  cases hr : chat.role with
  | user => simp [providerNAOk, mapRole, hr]
  | assistant =>
    rw [assistantNAOk, hr] at h
    have h' : chat.message = "NA".toList := eq_of_beq h
    simp [providerNAOk, mapRole, hr, h']

theorem processParsed_obj_output_prim (fs : List (List Char × Json)) (v : Json)
    (hout : objLookup fs outputKey = some v)
    (hobj : v.isObjB = false) (hnn : v ≠ Json.null) :
    processParsed (Json.obj fs) =
      Except.ok (some
        { role := Role.assistant, message := "NA".toList, type := DisplayType.markdown,
          assistantResponse := some
            { feedback := none, hints := none, snippet := none,
              programmingLanguage := none } }) := by
  have hany : fs.any (fun kv => kv.1 == outputKey) = true :=
    objLookup_any fs outputKey v hout
  have hov : outputVal (Json.obj fs) = v := by
    simp [outputVal, hout]
  cases v with
  | null => exact absurd rfl hnn
  | obj ofs => simp [Json.isObjB] at hobj
  | bool b => simp [processParsed, jsHasOutput, hany, hov, jsGetField]
  | num r => simp [processParsed, jsHasOutput, hany, hov, jsGetField]
  | str s => simp [processParsed, jsHasOutput, hany, hov, jsGetField]
  | arr xs => simp [processParsed, jsHasOutput, hany, hov, jsGetField]



/-! ## Claims -/

/-- C1: for every turn with prior chat history `h`, non-empty submitted text
`t` and extracted code `c`, the message sequence sent to the completion
provider is exactly one system message carrying the built prompt, then one
message per entry of `h` in order with the role carried over (user to user,
assistant to assistant) and content equal to that entry's raw message, then
one final user message whose content is the literal concatenation
of the text after the marker User Prompt and the code after the marker Code. -/
theorem c1_provider_message_sequence (env : TurnEnv) (st : SessionState)
    (key : List Char) (hk : env.apiKey = some key) (hne : st.value ≠ []) :
    (submitTurn env st).2.request =
      some
        ({ role := PRole.system,
           content := buildPrompt env.problemStatement
             (detectLanguage env.langButton) env.extractedCode } ::
          st.chatHistory.map (fun chat =>
            { role := mapRole chat.role, content := chat.message }) ++
          [{ role := PRole.user,
             content := "User Prompt: ".toList ++ st.value ++
               "\n\nCode: ".toList ++ env.extractedCode }]) := by
  rw [submitTurn_eq env st hne, handler_eq env st.value st.chatHistory key hk]
  cases hr : processReply env.replyContent <;> simp [buildMessages]

/-- Witness for C1 at the spec's own test vector: history user a then
assistant b, new turn text c, extracted code code1. -/
theorem c1_witness :
    (submitTurn
      { apiKey := some ("k".toList), problemStatement := "PS".toList,
        langButton := some ("Python".toList), extractedCode := "code1".toList,
        replyContent := none }
      { value := "c".toList,
        chatHistory :=
          [{ role := Role.user, message := "a".toList, type := DisplayType.text,
             assistantResponse := none },
           { role := Role.assistant, message := "b".toList, type := DisplayType.markdown,
             assistantResponse := none }] }).2.request =
      some
        ({ role := PRole.system,
           content := buildPrompt ("PS".toList)
             (detectLanguage (some ("Python".toList))) ("code1".toList) } ::
          ([{ role := Role.user, message := "a".toList, type := DisplayType.text,
              assistantResponse := none },
            { role := Role.assistant, message := "b".toList, type := DisplayType.markdown,
              assistantResponse := none }] : List ChatMessage).map (fun chat =>
            ({ role := mapRole chat.role, content := chat.message } : ProviderMessage)) ++
          [{ role := PRole.user,
             content := "User Prompt: ".toList ++ "c".toList ++
               "\n\nCode: ".toList ++ "code1".toList }]) :=
  c1_provider_message_sequence _ _ ("k".toList) rfl (by decide)

/-- C2, counterexample: with the credential absent and prior history empty,
submitting the text hi leaves the store with one entry (the user entry that
`onSendMessage` appends before the credential check), not with the zero
entries it had before the submit — so the store does not remain unchanged,
contrary to the claim.  The credential prompt does fire. -/
theorem c2_counterexample :
    ((submitTurn
      { apiKey := none, problemStatement := [], langButton := none,
        extractedCode := [], replyContent := none }
      { value := "hi".toList, chatHistory := [] }).1.chatHistory.length = 1) ∧
    ((submitTurn
      { apiKey := none, problemStatement := [], langButton := none,
        extractedCode := [], replyContent := none }
      { value := "hi".toList, chatHistory := [] }).2.alerted = true) :=
  ⟨rfl, rfl⟩

/-- C2 as amended: if the credential is absent at submit time, the
conversation store gains exactly the one user entry for the submitted text
(no assistant entry), the user-visible credential prompt is emitted, no
network call is made, and the turn terminates without an exception. -/
theorem c2_credential_missing (env : TurnEnv) (st : SessionState)
    (hk : env.apiKey = none) (hne : st.value ≠ []) :
    (submitTurn env st).1.chatHistory =
      st.chatHistory ++
        [{ role := Role.user, message := st.value, type := DisplayType.text,
           assistantResponse := none }] ∧
    (submitTurn env st).2.alerted = true ∧
    (submitTurn env st).2.request = none ∧
    (submitTurn env st).2.appended = none ∧
    (submitTurn env st).2.threw = false := by
  rw [submitTurn_eq env st hne, handler_none_key env st.value st.chatHistory hk]
  simp

/-- Witness for C2 as amended. -/
theorem c2_witness :
    (submitTurn
      { apiKey := none, problemStatement := [], langButton := none,
        extractedCode := [], replyContent := none }
      { value := "hi".toList, chatHistory := [] }).1.chatHistory =
      [] ++
        [{ role := Role.user, message := "hi".toList, type := DisplayType.text,
           assistantResponse := none }] ∧
    (submitTurn
      { apiKey := none, problemStatement := [], langButton := none,
        extractedCode := [], replyContent := none }
      { value := "hi".toList, chatHistory := [] }).2.alerted = true ∧
    (submitTurn
      { apiKey := none, problemStatement := [], langButton := none,
        extractedCode := [], replyContent := none }
      { value := "hi".toList, chatHistory := [] }).2.request = none ∧
    (submitTurn
      { apiKey := none, problemStatement := [], langButton := none,
        extractedCode := [], replyContent := none }
      { value := "hi".toList, chatHistory := [] }).2.appended = none ∧
    (submitTurn
      { apiKey := none, problemStatement := [], langButton := none,
        extractedCode := [], replyContent := none }
      { value := "hi".toList, chatHistory := [] }).2.threw = false :=
  c2_credential_missing _ _ rfl (by decide)

/-- C3, counterexample: passing the literal placeholder text for the
programming language as the problem statement p (with ordinary language and
code values) yields a prompt different from the spec's non-recursive
substitution: the second chained replace finds its placeholder text inside
the substituted p first, so the substituted value IS re-scanned and
rewritten, contrary to the claim. -/
theorem c3_counterexample :
    buildPrompt plPat ("LANG".toList) ("CODE".toList) ≠
      specSubstitute plPat ("LANG".toList) ("CODE".toList) := by decide

/-- C3 as amended: provided the substituted problem statement and language
values contain no opening-brace character and none of the three substituted
values contains a dollar sign (so both the first-occurrence search and the
replacement-template expansion of `String.prototype.replace` insert the
value verbatim), the prompt builder substitutes each of the three
placeholders exactly once, left to right, and substituted values are not
re-scanned — the result coincides with the spec's simultaneous
substitution.  (Without the brace restriction the counterexample shows
re-scanning occurs; without the dollar restriction the replacement is not
inserted verbatim.) -/
theorem c3_plain_values_no_rescan (p lang code : List Char)
    (hp : '\x7b' ∉ p) (hl : '\x7b' ∉ lang)
    (hdp : '$' ∉ p) (hdl : '$' ∉ lang) (hdc : '$' ∉ code) :
    buildPrompt p lang code = specSubstitute p lang code := by
  have hps : psPat = '\x7b' :: ("\x7bproblem_statement\x7d\x7d".toList) := rfl
  have hpl : plPat = '\x7b' :: ("\x7bprogramming_language\x7d\x7d".toList) := rfl
  have huc : ucPat = '\x7b' :: ("\x7buser_code\x7d\x7d".toList) := rfl
  have hA : '\x7b' ∉ tplA := by decide
  have hB : '\x7b' ∉ tplB := by decide
  have hC : '\x7b' ∉ tplC := by decide
  unfold buildPrompt
  rw [show SYSTEM_PROMPT = tplA ++ (psPat ++ (tplB ++ (plPat ++ (tplC ++ (ucPat ++ tplD)))))
    from by simp [SYSTEM_PROMPT, List.append_assoc]]
  rw [replaceFirst_split psPat p tplA _ _ hps hA hdp]
  rw [show tplA ++ (p ++ (tplB ++ (plPat ++ (tplC ++ (ucPat ++ tplD))))) =
      (tplA ++ p ++ tplB) ++ (plPat ++ (tplC ++ (ucPat ++ tplD)))
    from by simp [List.append_assoc]]
  rw [replaceFirst_split plPat lang (tplA ++ p ++ tplB) _ _ hpl
    (by simp only [List.mem_append, not_or]; exact ⟨⟨hA, hp⟩, hB⟩) hdl]
  rw [show (tplA ++ p ++ tplB) ++ (lang ++ (tplC ++ (ucPat ++ tplD))) =
      (tplA ++ p ++ tplB ++ lang ++ tplC) ++ (ucPat ++ tplD)
    from by simp [List.append_assoc]]
  rw [replaceFirst_split ucPat code (tplA ++ p ++ tplB ++ lang ++ tplC) _ _ huc
    (by simp only [List.mem_append, not_or]; exact ⟨⟨⟨⟨hA, hp⟩, hB⟩, hl⟩, hC⟩) hdc]
  simp [specSubstitute, List.append_assoc]

/-- Witness for C3 as amended, at brace-free and dollar-free values. -/
theorem c3_witness :
    buildPrompt ("Sum two numbers".toList) ("Python".toList) ("def f(): pass".toList) =
      specSubstitute ("Sum two numbers".toList) ("Python".toList) ("def f(): pass".toList) :=
  c3_plain_values_no_rescan _ _ _ (by decide) (by decide) (by decide) (by decide) (by decide)

/-- C4, counterexample: with the credential present and the provider reply
being the non-JSON text not-json, the turn does NOT terminate cleanly: the
`JSON.parse` exception escapes the handler (`threw = true`), there is no
`MalformedJson` classification, and no entry is appended — contrary to the
claim that every failure is absorbed at the Session Controller boundary. -/
theorem c4_counterexample :
    ((submitTurn
      { apiKey := some ("k".toList), problemStatement := "PS".toList,
        langButton := none, extractedCode := [],
        replyContent := some ("not-json".toList) }
      { value := "hi".toList, chatHistory := [] }).2.threw = true) ∧
    ((submitTurn
      { apiKey := some ("k".toList), problemStatement := "PS".toList,
        langButton := none, extractedCode := [],
        replyContent := some ("not-json".toList) }
      { value := "hi".toList, chatHistory := [] }).2.appended = none) :=
  ⟨rfl, rfl⟩

/-- C4 as amended: a provider reply whose non-empty content fails to parse
as JSON makes the unguarded `JSON.parse` call raise an exception that
escapes the handler (an unhandled promise rejection — not absorbed, and not
classified as `MalformedJson`); no assistant entry is appended, so the
store keeps exactly the user entry of the turn. -/
theorem c4_unparseable_reply_throws (env : TurnEnv) (st : SessionState)
    (key content : List Char)
    (hk : env.apiKey = some key) (hne : st.value ≠ [])
    (hc : env.replyContent = some content) (hcne : content ≠ [])
    (hp : parseJson content = none) :
    (submitTurn env st).2.threw = true ∧
    (submitTurn env st).2.appended = none ∧
    (submitTurn env st).1.chatHistory =
      st.chatHistory ++
        [{ role := Role.user, message := st.value, type := DisplayType.text,
           assistantResponse := none }] := by
  rw [submitTurn_eq env st hne, handler_eq env st.value st.chatHistory key hk]
  have hr : processReply env.replyContent = Except.error () := by
    simp [processReply, hc, hcne, hp]
  rw [hr]
  simp

/-- Witness for C4 as amended. -/
theorem c4_witness :
    (submitTurn
      { apiKey := some ("k".toList), problemStatement := "PS".toList,
        langButton := none, extractedCode := [],
        replyContent := some ("not-json".toList) }
      { value := "hi".toList, chatHistory := [] }).2.threw = true ∧
    (submitTurn
      { apiKey := some ("k".toList), problemStatement := "PS".toList,
        langButton := none, extractedCode := [],
        replyContent := some ("not-json".toList) }
      { value := "hi".toList, chatHistory := [] }).2.appended = none ∧
    (submitTurn
      { apiKey := some ("k".toList), problemStatement := "PS".toList,
        langButton := none, extractedCode := [],
        replyContent := some ("not-json".toList) }
      { value := "hi".toList, chatHistory := [] }).1.chatHistory =
      [] ++
        [{ role := Role.user, message := "hi".toList, type := DisplayType.text,
           assistantResponse := none }] :=
  c4_unparseable_reply_throws _ _ ("k".toList) ("not-json".toList)
    rfl (by decide) rfl (by decide) rfl

/-- C5, counterexample: submitting a single-space text (whitespace-only but
of non-zero length) is NOT a no-op: the guard only checks `length === 0`,
so a user entry is appended (the store grows to one entry) and a provider
request is made — contrary to the claim. -/
theorem c5_counterexample :
    ((submitTurn
      { apiKey := some ("k".toList), problemStatement := "PS".toList,
        langButton := none, extractedCode := [], replyContent := none }
      { value := [' '], chatHistory := [] }).1.chatHistory.length = 1) ∧
    ((submitTurn
      { apiKey := some ("k".toList), problemStatement := "PS".toList,
        langButton := none, extractedCode := [], replyContent := none }
      { value := [' '], chatHistory := [] }).2.request.isSome = true) :=
  ⟨rfl, rfl⟩

/-- C5 as amended: only the empty submitted text is a no-op — no entry is
appended, no provider call is made, nothing is alerted and nothing thrown;
a whitespace-only non-empty text passes the `length === 0` guard and is
submitted like any other text. -/
theorem c5_empty_submit_noop (env : TurnEnv) (st : SessionState)
    (h : st.value = []) :
    submitTurn env st =
      (st, { alerted := false, request := none, appended := none, threw := false }) := by
  simp [submitTurn, h]

/-- Witness for C5 as amended. -/
theorem c5_witness :
    submitTurn
      { apiKey := some ("k".toList), problemStatement := "PS".toList,
        langButton := none, extractedCode := [], replyContent := none }
      { value := [], chatHistory := [] } =
      ({ value := [], chatHistory := [] },
       { alerted := false, request := none, appended := none, threw := false }) :=
  c5_empty_submit_noop _ _ rfl

/-- C6: a provider reply whose content parses as a JSON object without the
top-level key output makes the turn fail silently: nothing is thrown,
no assistant entry is appended, no alert is raised, and the store keeps
exactly the user entry of the turn. -/
theorem c6_missing_output_silent_drop (env : TurnEnv) (st : SessionState)
    (key content : List Char) (fs : List (List Char × Json))
    (hk : env.apiKey = some key) (hne : st.value ≠ [])
    (hc : env.replyContent = some content)
    (hparse : parseJson content = some (Json.obj fs))
    (hmiss : fs.all (fun kv => !(kv.1 == outputKey)) = true) :
    (submitTurn env st).2.threw = false ∧
    (submitTurn env st).2.appended = none ∧
    (submitTurn env st).2.alerted = false ∧
    (submitTurn env st).1.chatHistory =
      st.chatHistory ++
        [{ role := Role.user, message := st.value, type := DisplayType.text,
           assistantResponse := none }] := by
  rw [submitTurn_eq env st hne, handler_eq env st.value st.chatHistory key hk]
  have hr : processReply env.replyContent = Except.ok none := by
    rw [hc, processReply_parsed content _ hparse]
    exact processParsed_obj_no_output fs hmiss
  rw [hr]
  simp

/-- Witness for C6 at the spec's test vector: the reply is the empty JSON
object. -/
theorem c6_witness :
    (submitTurn
      { apiKey := some ("k".toList), problemStatement := "PS".toList,
        langButton := none, extractedCode := [],
        replyContent := some ("\x7b\x7d".toList) }
      { value := "hi".toList, chatHistory := [] }).2.threw = false ∧
    (submitTurn
      { apiKey := some ("k".toList), problemStatement := "PS".toList,
        langButton := none, extractedCode := [],
        replyContent := some ("\x7b\x7d".toList) }
      { value := "hi".toList, chatHistory := [] }).2.appended = none ∧
    (submitTurn
      { apiKey := some ("k".toList), problemStatement := "PS".toList,
        langButton := none, extractedCode := [],
        replyContent := some ("\x7b\x7d".toList) }
      { value := "hi".toList, chatHistory := [] }).2.alerted = false ∧
    (submitTurn
      { apiKey := some ("k".toList), problemStatement := "PS".toList,
        langButton := none, extractedCode := [],
        replyContent := some ("\x7b\x7d".toList) }
      { value := "hi".toList, chatHistory := [] }).1.chatHistory =
      [] ++
        [{ role := Role.user, message := "hi".toList, type := DisplayType.text,
           assistantResponse := none }] :=
  c6_missing_output_silent_drop _ _ ("k".toList) ("\x7b\x7d".toList) []
    rfl (by decide) rfl rfl rfl

/-- C7: for every non-empty submitted text, the submit clears the input
buffer and appends exactly one user entry — role user, display kind
plain text, raw message equal to the submitted text verbatim — to the
store; anything else appended by the turn is a single assistant entry
appended after it (in the sequential model, the user entry is in place
before the provider call is issued). -/
theorem c7_user_entry_appended (env : TurnEnv) (st : SessionState)
    (hne : st.value ≠ []) :
    (submitTurn env st).1.value = [] ∧
    (submitTurn env st).1.chatHistory =
      st.chatHistory ++
        [{ role := Role.user, message := st.value, type := DisplayType.text,
           assistantResponse := none }] ++
        (submitTurn env st).2.appended.toList ∧
    ((submitTurn env st).2.appended.all
      (fun m => m.role == Role.assistant)) = true := by
  rw [submitTurn_eq env st hne]
  refine ⟨rfl, rfl, ?_⟩
  cases happ : (handleGenerateAIResponse env st.value st.chatHistory).appended with
  | none => rfl
  | some m =>
    have hs := handler_appended_shape env st.value st.chatHistory m happ
    simp [Option.all, hs.1]

/-- Witness for C7. -/
theorem c7_witness :
    (submitTurn
      { apiKey := some ("k".toList), problemStatement := "PS".toList,
        langButton := none, extractedCode := [], replyContent := none }
      { value := "help".toList, chatHistory := [] }).1.value = [] ∧
    (submitTurn
      { apiKey := some ("k".toList), problemStatement := "PS".toList,
        langButton := none, extractedCode := [], replyContent := none }
      { value := "help".toList, chatHistory := [] }).1.chatHistory =
      [] ++
        [{ role := Role.user, message := "help".toList, type := DisplayType.text,
           assistantResponse := none }] ++
        (submitTurn
          { apiKey := some ("k".toList), problemStatement := "PS".toList,
            langButton := none, extractedCode := [], replyContent := none }
          { value := "help".toList, chatHistory := [] }).2.appended.toList ∧
    ((submitTurn
      { apiKey := some ("k".toList), problemStatement := "PS".toList,
        langButton := none, extractedCode := [], replyContent := none }
      { value := "help".toList, chatHistory := [] }).2.appended.all
      (fun m => m.role == Role.assistant)) = true :=
  c7_user_entry_appended _ _ (by decide)

/-- C8: a provider reply parsing to a JSON object whose output value is an
object appends exactly one assistant entry — role assistant, display kind
markdown, raw message the sentinel NA — whose payload fields are exactly
the output object's fields feedback, hints, snippet and programmingLanguage
(absent when missing); nothing is thrown. -/
theorem c8_output_object_appends_entry (env : TurnEnv) (st : SessionState)
    (key content : List Char)
    (fs ofs : List (List Char × Json))
    (hk : env.apiKey = some key) (hne : st.value ≠ [])
    (hc : env.replyContent = some content)
    (hparse : parseJson content = some (Json.obj fs))
    (hout : objLookup fs outputKey = some (Json.obj ofs)) :
    (submitTurn env st).2.threw = false ∧
    (submitTurn env st).2.appended =
      some
        { role := Role.assistant, message := "NA".toList, type := DisplayType.markdown,
          assistantResponse := some
            { feedback := objLookup ofs feedbackKey,
              hints := objLookup ofs hintsKey,
              snippet := objLookup ofs snippetKey,
              programmingLanguage := objLookup ofs programmingLanguageKey } } ∧
    (submitTurn env st).1.chatHistory =
      st.chatHistory ++
        [{ role := Role.user, message := st.value, type := DisplayType.text,
           assistantResponse := none }] ++
        [{ role := Role.assistant, message := "NA".toList, type := DisplayType.markdown,
           assistantResponse := some
             { feedback := objLookup ofs feedbackKey,
               hints := objLookup ofs hintsKey,
               snippet := objLookup ofs snippetKey,
               programmingLanguage := objLookup ofs programmingLanguageKey } }] := by
  rw [submitTurn_eq env st hne, handler_eq env st.value st.chatHistory key hk]
  have hr : processReply env.replyContent =
      Except.ok (some
        { role := Role.assistant, message := "NA".toList, type := DisplayType.markdown,
          assistantResponse := some
            { feedback := objLookup ofs feedbackKey,
              hints := objLookup ofs hintsKey,
              snippet := objLookup ofs snippetKey,
              programmingLanguage := objLookup ofs programmingLanguageKey } }) := by
    rw [hc, processReply_parsed content _ hparse]
    exact processParsed_obj_output_obj fs ofs hout
  rw [hr]
  simp

/-- Witness for C8 at the spec's test vector: the reply has an output
object with feedback f; the appended payload has feedback f and all other
fields absent. -/
theorem c8_witness :
    (submitTurn
      { apiKey := some ("k".toList), problemStatement := "PS".toList,
        langButton := none, extractedCode := [],
        replyContent := some ("\x7b\"output\":\x7b\"feedback\":\"f\"\x7d\x7d".toList) }
      { value := "hi".toList, chatHistory := [] }).2.threw = false ∧
    (submitTurn
      { apiKey := some ("k".toList), problemStatement := "PS".toList,
        langButton := none, extractedCode := [],
        replyContent := some ("\x7b\"output\":\x7b\"feedback\":\"f\"\x7d\x7d".toList) }
      { value := "hi".toList, chatHistory := [] }).2.appended =
      some
        { role := Role.assistant, message := "NA".toList, type := DisplayType.markdown,
          assistantResponse := some
            { feedback := objLookup [("feedback".toList, Json.str ("f".toList))] feedbackKey,
              hints := objLookup [("feedback".toList, Json.str ("f".toList))] hintsKey,
              snippet := objLookup [("feedback".toList, Json.str ("f".toList))] snippetKey,
              programmingLanguage :=
                objLookup [("feedback".toList, Json.str ("f".toList))] programmingLanguageKey } } ∧
    (submitTurn
      { apiKey := some ("k".toList), problemStatement := "PS".toList,
        langButton := none, extractedCode := [],
        replyContent := some ("\x7b\"output\":\x7b\"feedback\":\"f\"\x7d\x7d".toList) }
      { value := "hi".toList, chatHistory := [] }).1.chatHistory =
      [] ++
        [{ role := Role.user, message := "hi".toList, type := DisplayType.text,
           assistantResponse := none }] ++
        [{ role := Role.assistant, message := "NA".toList, type := DisplayType.markdown,
           assistantResponse := some
             { feedback := objLookup [("feedback".toList, Json.str ("f".toList))] feedbackKey,
               hints := objLookup [("feedback".toList, Json.str ("f".toList))] hintsKey,
               snippet := objLookup [("feedback".toList, Json.str ("f".toList))] snippetKey,
               programmingLanguage :=
                 objLookup [("feedback".toList, Json.str ("f".toList))] programmingLanguageKey } }] :=
  c8_output_object_appends_entry _ _ ("k".toList)
    ("\x7b\"output\":\x7b\"feedback\":\"f\"\x7d\x7d".toList)
    [("output".toList, Json.obj [("feedback".toList, Json.str ("f".toList))])]
    [("feedback".toList, Json.str ("f".toList))]
    rfl (by decide) rfl rfl rfl

theorem handler_request_some (env : TurnEnv) (v : List Char)
    (hist : List ChatMessage) (key : List Char) (hk : env.apiKey = some key) :
    (handleGenerateAIResponse env v hist).request =
      some (buildMessages
        (buildPrompt env.problemStatement (detectLanguage env.langButton) env.extractedCode)
        hist v env.extractedCode) := by
  rw [handler_eq env v hist key hk]
  cases hr : processReply env.replyContent <;> rfl

theorem buildMessages_all_NA (sys : List Char) (hist : List ChatMessage)
    (um code : List Char) (hinv : allAssistantNA hist = true) :
    (buildMessages sys hist um code).all providerNAOk = true := by
  rw [allAssistantNA, List.all_eq_true] at hinv
  simp only [buildMessages, List.all_cons, List.all_append, Bool.and_eq_true]
  refine ⟨⟨rfl, ?_⟩, rfl, rfl⟩
  rw [List.all_eq_true]
  intro pm hpm
  rcases List.mem_map.mp hpm with ⟨chat, hchat, hmapped⟩
  rw [← hmapped]
  exact providerNAOk_of_assistantNAOk chat (hinv chat hchat)

/-- C9: assistant entries always carry the sentinel raw message NA — the
sentinel invariant is preserved by every turn — and consequently every
assistant-role message replayed to the provider in a request has content
NA, regardless of the entry's structured payload. -/
theorem c9_assistant_sentinel_na (env : TurnEnv) (st : SessionState)
    (hinv : allAssistantNA st.chatHistory = true) :
    allAssistantNA (submitTurn env st).1.chatHistory = true ∧
    ((submitTurn env st).2.request.all
      (fun msgs => msgs.all providerNAOk)) = true := by
  by_cases hv : st.value = []
  · constructor
    · simpa [submitTurn, hv] using hinv
    · simp [submitTurn, hv, Option.all]
  · rw [submitTurn_eq env st hv]
    constructor
    · simp only [allAssistantNA, List.all_append, Bool.and_eq_true]
      refine ⟨⟨hinv, rfl⟩, ?_⟩
      cases happ : (handleGenerateAIResponse env st.value st.chatHistory).appended with
      | none => rfl
      | some m =>
        have hs := handler_appended_shape env st.value st.chatHistory m happ
        simp [Option.toList, assistantNAOk, hs.1, hs.2.1]
    · cases hk : env.apiKey with
      | none => rw [handler_none_key env st.value st.chatHistory hk]; rfl
      | some k =>
        rw [handler_request_some env st.value st.chatHistory k hk]
        simpa [Option.all] using
          buildMessages_all_NA _ st.chatHistory st.value env.extractedCode hinv

/-- Witness for C9, at a store already holding one assistant entry with the
sentinel message. -/
theorem c9_witness :
    allAssistantNA (submitTurn
      { apiKey := some ("k".toList), problemStatement := "PS".toList,
        langButton := none, extractedCode := [], replyContent := none }
      { value := "hi".toList,
        chatHistory :=
          [{ role := Role.assistant, message := "NA".toList, type := DisplayType.markdown,
             assistantResponse := none }] }).1.chatHistory = true ∧
    ((submitTurn
      { apiKey := some ("k".toList), problemStatement := "PS".toList,
        langButton := none, extractedCode := [], replyContent := none }
      { value := "hi".toList,
        chatHistory :=
          [{ role := Role.assistant, message := "NA".toList, type := DisplayType.markdown,
             assistantResponse := none }] }).2.request.all
      (fun msgs => msgs.all providerNAOk)) = true :=
  c9_assistant_sentinel_na _ _ rfl

/-- C10, counterexample: a reply whose output value is the string s does
NOT raise an exception — JavaScript property access on a non-null primitive
yields undefined — and an assistant entry IS appended (with an empty
payload), contrary to the claim that every non-object output value makes
the handler throw and append nothing. -/
theorem c10_counterexample :
    ((submitTurn
      { apiKey := some ("k".toList), problemStatement := "PS".toList,
        langButton := none, extractedCode := [],
        replyContent := some ("\x7b\"output\":\"s\"\x7d".toList) }
      { value := "hi".toList, chatHistory := [] }).2.threw = false) ∧
    ((submitTurn
      { apiKey := some ("k".toList), problemStatement := "PS".toList,
        langButton := none, extractedCode := [],
        replyContent := some ("\x7b\"output\":\"s\"\x7d".toList) }
      { value := "hi".toList, chatHistory := [] }).2.appended.isSome = true) :=
  ⟨rfl, rfl⟩

/-- C10 as amended: when the parsed reply is an object whose output value
is not an object, the unguarded field accesses throw only for the value
null — the turn then raises an exception inside the handler and appends no
assistant entry — while for every other non-object value (string, number,
boolean, array) property access yields undefined, nothing is thrown, and
an assistant entry with an all-absent payload IS appended. -/
theorem c10_null_output_throws (env : TurnEnv) (st : SessionState)
    (key content : List Char) (fs : List (List Char × Json)) (v : Json)
    (hk : env.apiKey = some key) (hne : st.value ≠ [])
    (hc : env.replyContent = some content)
    (hparse : parseJson content = some (Json.obj fs))
    (hout : objLookup fs outputKey = some v)
    (hobj : Json.isObjB v = false) :
    (v = Json.null →
      (submitTurn env st).2.threw = true ∧
      (submitTurn env st).2.appended = none) ∧
    (v ≠ Json.null →
      (submitTurn env st).2.threw = false ∧
      (submitTurn env st).2.appended =
        some
          { role := Role.assistant, message := "NA".toList, type := DisplayType.markdown,
            assistantResponse := some
              { feedback := none, hints := none, snippet := none,
                programmingLanguage := none } }) := by
  constructor
  · intro hvn
    subst hvn
    rw [submitTurn_eq env st hne, handler_eq env st.value st.chatHistory key hk]
    have hr : processReply env.replyContent = Except.error () := by
      rw [hc, processReply_parsed content _ hparse]
      exact processParsed_obj_output_null fs hout
    rw [hr]
    exact ⟨rfl, rfl⟩
  · intro hnn
    rw [submitTurn_eq env st hne, handler_eq env st.value st.chatHistory key hk]
    have hr : processReply env.replyContent =
        Except.ok (some
          { role := Role.assistant, message := "NA".toList, type := DisplayType.markdown,
            assistantResponse := some
              { feedback := none, hints := none, snippet := none,
                programmingLanguage := none } }) := by
      rw [hc, processReply_parsed content _ hparse]
      exact processParsed_obj_output_prim fs v hout hobj hnn
    rw [hr]
    exact ⟨rfl, rfl⟩

/-- Witness for C10 as amended, at an output value of null. -/
theorem c10_witness :
    (Json.null = Json.null →
      (submitTurn
        { apiKey := some ("k".toList), problemStatement := "PS".toList,
          langButton := none, extractedCode := [],
          replyContent := some ("\x7b\"output\":null\x7d".toList) }
        { value := "hi".toList, chatHistory := [] }).2.threw = true ∧
      (submitTurn
        { apiKey := some ("k".toList), problemStatement := "PS".toList,
          langButton := none, extractedCode := [],
          replyContent := some ("\x7b\"output\":null\x7d".toList) }
        { value := "hi".toList, chatHistory := [] }).2.appended = none) ∧
    (Json.null ≠ Json.null →
      (submitTurn
        { apiKey := some ("k".toList), problemStatement := "PS".toList,
          langButton := none, extractedCode := [],
          replyContent := some ("\x7b\"output\":null\x7d".toList) }
        { value := "hi".toList, chatHistory := [] }).2.threw = false ∧
      (submitTurn
        { apiKey := some ("k".toList), problemStatement := "PS".toList,
          langButton := none, extractedCode := [],
          replyContent := some ("\x7b\"output\":null\x7d".toList) }
        { value := "hi".toList, chatHistory := [] }).2.appended =
        some
          { role := Role.assistant, message := "NA".toList, type := DisplayType.markdown,
            assistantResponse := some
              { feedback := none, hints := none, snippet := none,
                programmingLanguage := none } }) :=
  c10_null_output_throws _ _ ("k".toList) ("\x7b\"output\":null\x7d".toList)
    [("output".toList, Json.null)] Json.null
    rfl (by decide) rfl rfl rfl rfl
